import Mathlib

/-!
Shallow embedding of the task-management backend:
`src/server/routes/tasks.js`, `src/server/routes/users.js`, and the
notification model/routes (`src/unnamed/part_000`).

Documents are modelled as Lean structures, the Mongo collections as lists
inside a `Store`, and each Express route handler as a pure function from
request data and store to a response together with the successor store.
Fresh `_id`s for inserted documents are drawn from per-collection counters.
-/

namespace TMS

abbrev UserId := Nat
abbrev TaskId := Nat
abbrev NotifId := Nat

/-- A user document (`models/User`): `fullName`, `username`, `email`,
`password`, `role`. -/
structure User where
  id : UserId
  fullName : String
  username : String
  email : String
  password : String
  role : String
deriving Repr, DecidableEq

/-- A task document (`models/Task`): title, description, status, priority,
optional due date, creator reference and assignee references. -/
structure Task where
  id : TaskId
  title : String
  description : String
  status : String
  priority : String
  dueDate : Option String
  createdBy : UserId
  assignedTo : List UserId
deriving Repr, DecidableEq

/-- The notification `type` enum: `['task_assigned', 'task_updated']`. -/
inductive NotifType where
  | task_assigned
  | task_updated
deriving Repr, DecidableEq

/-- A notification document (`models/Notification`): type, taskId, message,
recipient userId, and the `read` flag (default `false`). -/
structure Notification where
  id : NotifId
  type : NotifType
  taskId : TaskId
  message : String
  userId : UserId
  read : Bool
deriving Repr, DecidableEq

/-- The document store: the three collections, plus counters supplying the
`_id` of the next inserted task/notification document. -/
structure Store where
  users : List User
  tasks : List Task
  notifications : List Notification
  nextTaskId : TaskId
  nextNotifId : NotifId
deriving Repr, DecidableEq

/-- Route handler outcome, mirroring the HTTP responses of the task routes. -/
inductive TaskResp where
  | created (t : Task)
  | ok (t : Task)
  | deleted
  | notFound
  | forbidden
  | serverError
deriving Repr, DecidableEq

/-- HTTP status code of a `TaskResp`. -/
def TaskResp.statusCode : TaskResp → Nat
  | .created _ => 201
  | .ok _ => 200
  | .deleted => 200
  | .notFound => 404
  | .forbidden => 403
  | .serverError => 500

/-- Outcome of a notification route. -/
inductive NotifResp where
  | ok (n : Notification)
  | okMsg
  | notFound
  | forbidden
deriving Repr, DecidableEq

/-- HTTP status code of a `NotifResp`. -/
def NotifResp.statusCode : NotifResp → Nat
  | .ok _ => 200
  | .okMsg => 200
  | .notFound => 404
  | .forbidden => 403

/-- Embeds `Task.findById`: first document whose `_id` matches. -/
def findTask (id : TaskId) (s : Store) : Option Task :=
  s.tasks.find? (fun t => t.id == id)

/-- Embeds `Notification.findById`. -/
def findNotif (id : NotifId) (s : Store) : Option Notification :=
  s.notifications.find? (fun n => n.id == id)

/-- The documents built before `Notification.insertMany` in the task routes:
one `task_assigned` notification per listed user id, sharing the task id and
message, with `_id`s drawn consecutively from `base`. -/
def assignNotifs (base : NotifId) (tid : TaskId) (msg : String) :
    List UserId → List Notification
  | [] => []
  | u :: us =>
      { id := base, type := .task_assigned, taskId := tid,
        message := msg, userId := u, read := false }
        :: assignNotifs (base + 1) tid msg us

/-- Body of `POST /tasks`. `assignedTo` is `none` when the key is absent
from the JSON body (JavaScript `undefined`). -/
structure CreateBody where
  title : String
  description : String
  status : String
  priority : String
  dueDate : Option String
  assignedTo : Option (List UserId)
deriving Repr, DecidableEq

/-- The task document built and saved by `POST /tasks`: `createdBy` is forced
to the caller, and the mongoose array default makes an absent `assignedTo`
persist as `[]`. -/
def newTaskDoc (callerId : UserId) (b : CreateBody) (s : Store) : Task :=
  { id := s.nextTaskId, title := b.title, description := b.description,
    status := b.status, priority := b.priority, dueDate := b.dueDate,
    createdBy := callerId, assignedTo := b.assignedTo.getD [] }

/-- Route `POST /tasks` (tasks.js lines 59-94).  The task document is saved first;
afterwards `assignedTo.map(...)` runs on the raw request value: when the key
was absent this is `undefined.map`, which throws, and the catch block answers
500 — with the task already saved. -/
def createTask (callerId : UserId) (b : CreateBody) (s : Store) :
    TaskResp × Store :=
  let task := newTaskDoc callerId b s
  let s1 : Store :=
    { s with tasks := s.tasks ++ [task], nextTaskId := s.nextTaskId + 1 }
  match b.assignedTo with
  | none => (TaskResp.serverError, s1)
  | some l =>
      let notifs := assignNotifs s1.nextNotifId task.id
        ("You have been assigned a new task: " ++ b.title) l
      let s2 : Store :=
        { s1 with notifications := s1.notifications ++ notifs,
                  nextNotifId := s1.nextNotifId + l.length }
      (TaskResp.created task, s2)

/-- Body of `PUT /tasks/:id`: every field may be absent (`undefined`). -/
structure UpdateBody where
  title : Option String
  description : Option String
  status : Option String
  priority : Option String
  dueDate : Option String
  assignedTo : Option (List UserId)
deriving Repr, DecidableEq

/-- JavaScript string interpolation of a possibly-`undefined` value. -/
def jsStr : Option String → String
  | some x => x
  | none => "undefined"

/-- The `$set: updates` write of `PUT /tasks/:id`: mongoose strips keys whose
value is `undefined` from the update document, so absent body fields leave
the stored field unchanged. -/
def applyUpdates (t : Task) (b : UpdateBody) : Task :=
  { t with
    title := b.title.getD t.title,
    description := b.description.getD t.description,
    status := b.status.getD t.status,
    priority := b.priority.getD t.priority,
    dueDate := match b.dueDate with
      | some d => some d
      | none => t.dueDate,
    assignedTo := b.assignedTo.getD t.assignedTo }

/-- The collection after `findByIdAndUpdate` / a document write-back: the
document whose `_id` matches is replaced by the updated document. -/
def replaceTaskById (id : TaskId) (u : Task) (l : List Task) : List Task :=
  l.map (fun tk => if tk.id == id then u else tk)

/-- The notifications inserted by `PUT /tasks/:id` when an `assignedTo` list
is supplied: one per id of the supplied list not already present in the
stored `task.assignedTo` (the `newAssignees` filter). -/
def updateNotifs (task : Task) (b : UpdateBody) (base : NotifId) :
    List Notification :=
  match b.assignedTo with
  | none => []
  | some l =>
      assignNotifs base task.id
        ("You have been assigned to the task: " ++ jsStr b.title)
        (l.filter (fun u => !task.assignedTo.contains u))

/-- Route `PUT /tasks/:id` (tasks.js lines 97-145): 404 when the task is absent,
403 unless the caller is the creator; when `assignedTo` is supplied, the ids
not already in the stored `task.assignedTo` each get a `task_assigned`
notification (the `if (newAssignees.length > 0)` guard only skips an empty
`insertMany`); then `findByIdAndUpdate` applies the `$set`. -/
def updateTask (callerId : UserId) (id : TaskId) (b : UpdateBody)
    (s : Store) : TaskResp × Store :=
  match findTask id s with
  | none => (TaskResp.notFound, s)
  | some task =>
    if task.createdBy != callerId then (TaskResp.forbidden, s)
    else
      let notifs := updateNotifs task b s.nextNotifId
      let updated := applyUpdates task b
      let newTasks := replaceTaskById id updated s.tasks
      let s2 : Store :=
        { s with notifications := s.notifications ++ notifs,
                 nextNotifId := s.nextNotifId + notifs.length,
                 tasks := newTasks }
      (TaskResp.ok updated, s2)

/-- Route `PATCH /tasks/:id/status` (tasks.js lines 148-175): 404 when absent,
403 unless the caller is a member of `task.assignedTo`, then
`$set { status }`. -/
def updateStatus (callerId : UserId) (id : TaskId) (st : String)
    (s : Store) : TaskResp × Store :=
  match findTask id s with
  | none => (TaskResp.notFound, s)
  | some task =>
    if !task.assignedTo.contains callerId then (TaskResp.forbidden, s)
    else
      let updated := { task with status := st }
      let newTasks := replaceTaskById id updated s.tasks
      (TaskResp.ok updated, { s with tasks := newTasks })

/-- Route `DELETE /tasks/:id` (tasks.js lines 178-199): 404 when absent, 403 unless
the caller is the creator; then `task.deleteOne()` and
`Notification.deleteMany({ taskId: task._id })`. -/
def deleteTask (callerId : UserId) (id : TaskId) (s : Store) :
    TaskResp × Store :=
  match findTask id s with
  | none => (TaskResp.notFound, s)
  | some task =>
    if task.createdBy != callerId then (TaskResp.forbidden, s)
    else
      let newTasks := s.tasks.filter (fun t => !(t.id == task.id))
      let newNotifs := s.notifications.filter (fun n => !(n.taskId == task.id))
      (TaskResp.deleted, { s with tasks := newTasks, notifications := newNotifs })

/-- Route `GET /notifications` (notification routes): all notifications whose
`userId` is the caller, newest first (reverse of insertion order, matching
the `createdAt: -1` sort). -/
def listNotifications (callerId : UserId) (s : Store) : List Notification :=
  (s.notifications.filter (fun n => n.userId == callerId)).reverse

/-- The collection after `notification.read = true; notification.save()`:
the document whose `_id` matches gets `read = true`. -/
def setReadById (id : NotifId) (l : List Notification) : List Notification :=
  l.map (fun m => if m.id == id then { m with read := true } else m)

/-- Route `PATCH /notifications/:id/read`: 404 when absent, 403 unless the caller
owns it, then `notification.read = true; notification.save()`. -/
def markRead (callerId : UserId) (id : NotifId) (s : Store) :
    NotifResp × Store :=
  match findNotif id s with
  | none => (NotifResp.notFound, s)
  | some n =>
    if n.userId != callerId then (NotifResp.forbidden, s)
    else
      (NotifResp.ok { n with read := true },
        { s with notifications := setReadById id s.notifications })

/-- Route `POST /notifications/mark-all-read`:
`updateMany({ userId: caller, read: false }, { $set: { read: true } })`. -/
def markAllRead (callerId : UserId) (s : Store) : NotifResp × Store :=
  let newNotifs := s.notifications.map
    (fun n => if n.userId == callerId && !n.read then { n with read := true } else n)
  (NotifResp.okMsg, { s with notifications := newNotifs })

/-- Case-insensitive containment: the semantics of mongo's
`{ $regex: query, $options: 'i' }` for the unanchored pattern the search
route passes through. -/
def containsCI (q s : String) : Bool :=
  decide (q.toLower.toList <:+: s.toLower.toList)

/-- The `$or` filter of `GET /users/search`. -/
def userMatches (q : String) (u : User) : Bool :=
  containsCI q u.fullName || containsCI q u.username || containsCI q u.email

/-- A user record after `.select('-password')`. -/
structure UserView where
  id : UserId
  fullName : String
  username : String
  email : String
  role : String
deriving Repr, DecidableEq

/-- The `-password` projection. -/
def selectNoPassword (u : User) : UserView :=
  { id := u.id, fullName := u.fullName, username := u.username,
    email := u.email, role := u.role }

/-- Route `GET /users/search` (users.js lines 6-27): `query` is `none` when the
query-string key is absent; `if (!query)` also treats the empty string as
falsy and answers `{ users: [] }`; otherwise `User.find` with the three-way
`$or` regex filter, passwords projected away. -/
def searchUsers (query : Option String) (users : List User) : List UserView :=
  match query with
  | none => []
  | some q =>
      if q = "" then []
      else (users.filter (userMatches q)).map selectNoPassword

/-- A mutating request to the backend, with its arguments. -/
inductive Op where
  | createOp (callerId : UserId) (b : CreateBody)
  | updateOp (callerId : UserId) (id : TaskId) (b : UpdateBody)
  | updateStatusOp (callerId : UserId) (id : TaskId) (st : String)
  | deleteOp (callerId : UserId) (id : TaskId)
  | markReadOp (callerId : UserId) (id : NotifId)
  | markAllReadOp (callerId : UserId)
deriving Repr, DecidableEq

/-- The store after an operation (response discarded). -/
def applyOp : Op → Store → Store
  | .createOp c b, s => (createTask c b s).2
  | .updateOp c i b, s => (updateTask c i b s).2
  | .updateStatusOp c i st, s => (updateStatus c i st s).2
  | .deleteOp c i, s => (deleteTask c i s).2
  | .markReadOp c i, s => (markRead c i s).2
  | .markAllReadOp c, s => (markAllRead c s).2

/-! ### Helper lemmas about the inserted notification batches -/

theorem assignNotifs_length (base : NotifId) (tid : TaskId) (msg : String)
    (us : List UserId) : (assignNotifs base tid msg us).length = us.length := by
  induction us generalizing base with
  | nil => rfl
  | cons u us ih => simp [assignNotifs, ih]

theorem assignNotifs_map_userId (base : NotifId) (tid : TaskId) (msg : String)
    (us : List UserId) :
    (assignNotifs base tid msg us).map (fun nf => nf.userId) = us := by
  induction us generalizing base with
  | nil => rfl
  | cons u us ih => simp [assignNotifs, ih]

theorem mem_assignNotifs {base : NotifId} {tid : TaskId} {msg : String}
    {us : List UserId} {nf : Notification}
    (h : nf ∈ assignNotifs base tid msg us) :
    nf.type = NotifType.task_assigned ∧ nf.taskId = tid ∧ nf.message = msg ∧
    nf.userId ∈ us ∧ base ≤ nf.id ∧ nf.read = false := by
  induction us generalizing base with
  | nil => simp [assignNotifs] at h
  | cons u us ih =>
      simp only [assignNotifs, List.mem_cons] at h
      rcases h with h | h
      · subst h; simp
      · obtain ⟨h1, h2, h3, h4, h5, h6⟩ := ih h
        exact ⟨h1, h2, h3, by simp [h4], le_trans (Nat.le_succ base) h5, h6⟩

theorem assignNotifs_count (base : NotifId) (tid : TaskId) (msg : String)
    (us : List UserId) (u : UserId) :
    ((assignNotifs base tid msg us).filter
      (fun nf => nf.userId == u)).length = us.count u := by
  induction us generalizing base with
  | nil => rfl
  | cons v us ih =>
      by_cases hv : v = u
      · subst hv
        simp [assignNotifs, List.filter_cons, List.count_cons, ih]
      · simp [assignNotifs, List.filter_cons, List.count_cons, hv, ih]

/-! ### Helper lemmas about the write-back functions -/

theorem replaceTaskById_find? (id : TaskId) (u : Task) (l : List Task)
    (hu : u.id = id) (t : Task)
    (hfind : l.find? (fun tk => tk.id == id) = some t) :
    (replaceTaskById id u l).find? (fun tk => tk.id == id) = some u := by
  rw [replaceTaskById, List.find?_map]
  have hp : ((fun tk : Task => tk.id == id) ∘
      (fun tk => if tk.id == id then u else tk)) =
      (fun tk : Task => tk.id == id) := by
    funext tk
    by_cases h : tk.id = id <;> simp [Function.comp, h, hu]
  rw [hp, hfind, Option.map_some']
  have htid : t.id = id := by simpa using List.find?_some hfind
  simp [htid]

theorem setReadById_find? (id : NotifId) (l : List Notification)
    (n : Notification)
    (hfind : l.find? (fun m => m.id == id) = some n) :
    (setReadById id l).find? (fun m => m.id == id) =
      some { n with read := true } := by
  rw [setReadById, List.find?_map]
  have hp : ((fun m : Notification => m.id == id) ∘
      (fun m => if m.id == id then { m with read := true } else m)) =
      (fun m : Notification => m.id == id) := by
    funext m
    by_cases h : m.id = id <;> simp [Function.comp, h]
  rw [hp, hfind, Option.map_some']
  have hnid : n.id = id := by simpa using List.find?_some hfind
  simp [hnid]

theorem setReadById_idem (id : NotifId) (l : List Notification) :
    setReadById id (setReadById id l) = setReadById id l := by
  unfold setReadById
  rw [List.map_map]
  refine List.map_congr_left ?_
  intro m _
  by_cases h : m.id = id <;> simp [Function.comp, h]

/-! ### Concrete fixtures used by the witness theorems -/

/-- An empty store. -/
def s0 : Store :=
  { users := [], tasks := [], notifications := [], nextTaskId := 0,
    nextNotifId := 0 }

/-- A creation body assigning the task to users 1 and 2. -/
def bCreate : CreateBody :=
  { title := "write report", description := "d", status := "pending",
    priority := "high", dueDate := none, assignedTo := some [1, 2] }

/-! ### C1 -/

/-- C1: a successful task creation with `assignedTo = [u1, ..., un]` appends
exactly `n` fresh `task_assigned` notifications, one per listed user id (in
list order), each carrying the new task's id and a message embedding the
supplied title. -/
theorem create_notifies_each_assignee (caller : UserId) (b : CreateBody)
    (s : Store) (l : List UserId) (h : b.assignedTo = some l) :
    ∃ t added,
      (createTask caller b s).1 = TaskResp.created t ∧
      ((createTask caller b s).2).notifications = s.notifications ++ added ∧
      added.length = l.length ∧
      added.map (fun nf => nf.userId) = l ∧
      ∀ nf ∈ added, nf.type = NotifType.task_assigned ∧ nf.taskId = t.id ∧
        nf.message = "You have been assigned a new task: " ++ b.title := by
  refine ⟨{ id := s.nextTaskId, title := b.title, description := b.description,
            status := b.status, priority := b.priority, dueDate := b.dueDate,
            createdBy := caller, assignedTo := l },
          assignNotifs s.nextNotifId s.nextTaskId
            ("You have been assigned a new task: " ++ b.title) l,
          ?_, ?_, assignNotifs_length .., assignNotifs_map_userId .., ?_⟩
  · simp [createTask, newTaskDoc, h]
  · simp [createTask, newTaskDoc, h]
  · intro nf hnf
    obtain ⟨h1, h2, h3, -⟩ := mem_assignNotifs hnf
    exact ⟨h1, h2, h3⟩

/-- Witness for C1 at a concrete input: caller 0 creates a task assigned to
users 1 and 2 in the empty store. -/
theorem create_notifies_each_assignee_witness :
    ∃ t added,
      (createTask 0 bCreate s0).1 = TaskResp.created t ∧
      ((createTask 0 bCreate s0).2).notifications = s0.notifications ++ added ∧
      added.length = ([1, 2] : List UserId).length ∧
      added.map (fun nf => nf.userId) = [1, 2] ∧
      ∀ nf ∈ added, nf.type = NotifType.task_assigned ∧ nf.taskId = t.id ∧
        nf.message = "You have been assigned a new task: " ++ bCreate.title :=
  create_notifies_each_assignee 0 bCreate s0 [1, 2] rfl

/-! ### C10 -/

/-- A creation body with an explicitly empty assignee list. -/
def bEmpty : CreateBody :=
  { title := "t", description := "", status := "pending", priority := "low",
    dueDate := none, assignedTo := some [] }

/-- A creation body whose `assignedTo` key is absent. -/
def bNone : CreateBody :=
  { title := "t", description := "", status := "pending", priority := "low",
    dueDate := none, assignedTo := none }

/-- C10 counterexample: with `assignedTo` absent from the body, creation does
take the error branch (`undefined.map` throws) and answers 500, contradicting
the claim that an absent list is returned successfully. -/
theorem create_absent_assignees_errors :
    (createTask 0 bNone s0).1 = TaskResp.serverError ∧
    (createTask 0 bNone s0).1.statusCode = 500 := by
  constructor <;> rfl

/-- C10 (amended): with `assignedTo = []` the task is created and returned
successfully with zero notification inserts; with `assignedTo` absent the
handler takes the error branch and answers 500 — still inserting no
notifications, but only after the task document was already saved. -/
theorem create_empty_or_absent_assignees (caller : UserId) (b : CreateBody)
    (s : Store) :
    (b.assignedTo = some [] →
      ∃ t, (createTask caller b s).1 = TaskResp.created t ∧
        (createTask caller b s).1.statusCode = 201 ∧
        ((createTask caller b s).2).notifications = s.notifications) ∧
    (b.assignedTo = none →
      (createTask caller b s).1 = TaskResp.serverError ∧
      (createTask caller b s).1.statusCode = 500 ∧
      ((createTask caller b s).2).notifications = s.notifications ∧
      ((createTask caller b s).2).tasks =
        s.tasks ++ [newTaskDoc caller b s]) := by
  constructor
  · intro h
    refine ⟨newTaskDoc caller b s, ?_, ?_, ?_⟩ <;>
      simp [createTask, h, TaskResp.statusCode, assignNotifs]
  · intro h
    refine ⟨?_, ?_, ?_, ?_⟩ <;> simp [createTask, h, TaskResp.statusCode]

/-- Witness for C10 at concrete inputs: the empty-list body succeeds silently,
the absent-list body answers 500. -/
theorem create_empty_or_absent_assignees_witness :
    (∃ t, (createTask 0 bEmpty s0).1 = TaskResp.created t ∧
      (createTask 0 bEmpty s0).1.statusCode = 201 ∧
      ((createTask 0 bEmpty s0).2).notifications = s0.notifications) ∧
    ((createTask 0 bNone s0).1 = TaskResp.serverError ∧
      (createTask 0 bNone s0).1.statusCode = 500 ∧
      ((createTask 0 bNone s0).2).notifications = s0.notifications ∧
      ((createTask 0 bNone s0).2).tasks =
        s0.tasks ++ [newTaskDoc 0 bNone s0]) :=
  ⟨(create_empty_or_absent_assignees 0 bEmpty s0).1 rfl,
   (create_empty_or_absent_assignees 0 bNone s0).2 rfl⟩

/-! ### C2 -/

/-- A stored task created by user 0 and assigned to users 1 and 2. -/
def tStored : Task :=
  { id := 10, title := "t", description := "", status := "pending",
    priority := "low", dueDate := none, createdBy := 0, assignedTo := [1, 2] }

/-- A store holding just `tStored`, with no notifications. -/
def sTask : Store :=
  { users := [], tasks := [tStored], notifications := [], nextTaskId := 11,
    nextNotifId := 0 }

/-- An update body whose assignee list repeats the fresh user 3. -/
def bDup : UpdateBody :=
  { title := some "t", description := none, status := none, priority := none,
    dueDate := none, assignedTo := some [3, 3] }

/-- C2 counterexample: updating `tStored` (assignees `[1, 2]`) with the list
`[3, 3]` inserts two `task_assigned` notifications addressed to user 3, not
the exactly one per new id the claim requires. -/
theorem update_duplicate_assignee_two_notifications :
    sTask.notifications = [] ∧ (3 : UserId) ∉ tStored.assignedTo ∧
    (((updateTask 0 10 bDup sTask).2).notifications.filter
      (fun nf => nf.userId == 3)).length = 2 := by
  refine ⟨rfl, by decide, ?_⟩
  rfl

/-- C2 (amended): when the supplied `assignedTo` list has no duplicate ids
(the data model expects assignee sets), a creator update emits exactly one
`task_assigned` notification per supplied id not already among the stored
assignees and none for ids already present, each referencing the task; in
general the code emits one notification per list occurrence of a
not-yet-assigned id. -/
theorem update_notifies_exactly_new_assignees (caller : UserId) (id : TaskId)
    (b : UpdateBody) (s : Store) (t : Task) (l : List UserId)
    (hfind : findTask id s = some t) (hcr : t.createdBy = caller)
    (hl : b.assignedTo = some l) (hnd : l.Nodup) :
    ∃ added,
      ((updateTask caller id b s).2).notifications = s.notifications ++ added ∧
      (∀ nf ∈ added, nf.type = NotifType.task_assigned ∧ nf.taskId = t.id) ∧
      ∀ u : UserId,
        (added.filter (fun nf => nf.userId == u)).length =
          if u ∈ l ∧ u ∉ t.assignedTo then 1 else 0 := by
  subst hcr
  refine ⟨updateNotifs t b s.nextNotifId, ?_, ?_, ?_⟩
  · simp [updateTask, hfind]
  · intro nf hnf
    rw [updateNotifs, hl] at hnf
    obtain ⟨h1, h2, -⟩ := mem_assignNotifs hnf
    exact ⟨h1, h2⟩
  · intro u
    rw [updateNotifs, hl, assignNotifs_count]
    by_cases hmem : u ∈ l
    · by_cases hold : u ∈ t.assignedTo
      · rw [if_neg (by simp [hold])]
        refine List.count_eq_zero.mpr ?_
        intro hm
        exact absurd ((List.mem_filter.mp hm).2) (by simp [hold])
      · rw [if_pos ⟨hmem, hold⟩, List.count_filter (by simp [hold])]
        exact List.count_eq_one_of_mem hnd hmem
    · rw [if_neg (by simp [hmem])]
      refine List.count_eq_zero.mpr ?_
      intro hm
      exact absurd (List.mem_of_mem_filter hm) hmem

/-- An update body extending the assignees to `[1, 2, 3]`. -/
def bExtend : UpdateBody :=
  { title := some "t", description := none, status := none, priority := none,
    dueDate := none, assignedTo := some [1, 2, 3] }

/-- Witness for the amended C2 at a concrete input: extending the assignees
of `tStored` from `[1, 2]` to `[1, 2, 3]`. -/
theorem update_notifies_exactly_new_assignees_witness :
    ∃ added,
      ((updateTask 0 10 bExtend sTask).2).notifications =
        sTask.notifications ++ added ∧
      (∀ nf ∈ added, nf.type = NotifType.task_assigned ∧
        nf.taskId = tStored.id) ∧
      ∀ u : UserId,
        (added.filter (fun nf => nf.userId == u)).length =
          if u ∈ [1, 2, 3] ∧ u ∉ tStored.assignedTo then 1 else 0 :=
  update_notifies_exactly_new_assignees 0 10 bExtend sTask tStored [1, 2, 3]
    rfl rfl rfl (by decide)

/-! ### C3 -/

/-- A sample user. -/
def uA : User :=
  { id := 1, fullName := "Alice Smith", username := "alice",
    email := "alice@example.com", password := "secret", role := "user" }

/-- C3: search with an absent or empty query returns the empty set without
error, and otherwise returns exactly the users one of whose `fullName`,
`username` or `email` contains the query as a case-insensitive substring
(logical OR across the three fields). -/
theorem search_matches_substring_or (users : List User) :
    searchUsers none users = [] ∧ searchUsers (some "") users = [] ∧
    ∀ q : String, q ≠ "" → ∀ v : UserView,
      (v ∈ searchUsers (some q) users ↔
        ∃ u ∈ users,
          (q.toLower.toList <:+: u.fullName.toLower.toList ∨
           q.toLower.toList <:+: u.username.toLower.toList ∨
           q.toLower.toList <:+: u.email.toLower.toList) ∧
          v = selectNoPassword u) := by
  refine ⟨rfl, rfl, ?_⟩
  intro q hq v
  simp only [searchUsers, if_neg hq, List.mem_map, List.mem_filter]
  constructor
  · rintro ⟨u, ⟨hu, hm⟩, rfl⟩
    refine ⟨u, hu, ?_, rfl⟩
    simpa [userMatches, containsCI, or_assoc] using hm
  · rintro ⟨u, hu, hm, rfl⟩
    exact ⟨u, ⟨hu, by simpa [userMatches, containsCI, or_assoc] using hm⟩, rfl⟩

/-- Witness for C3 at a concrete input: searching `[uA]` for `"LICE"`. -/
theorem search_matches_substring_or_witness :
    selectNoPassword uA ∈ searchUsers (some "LICE") [uA] ↔
      ∃ u ∈ [uA],
        (("LICE" : String).toLower.toList <:+: u.fullName.toLower.toList ∨
         ("LICE" : String).toLower.toList <:+: u.username.toLower.toList ∨
         ("LICE" : String).toLower.toList <:+: u.email.toLower.toList) ∧
        selectNoPassword uA = selectNoPassword u :=
  (search_matches_substring_or [uA]).2.2 "LICE" (by decide)
    (selectNoPassword uA)

/-! ### C4 -/

/-- Agreement of two user records on every field except `password`. -/
def eqExceptPassword (u v : User) : Prop :=
  u.id = v.id ∧ u.fullName = v.fullName ∧ u.username = v.username ∧
  u.email = v.email ∧ u.role = v.role

theorem searchUsers_filter_map_congr (q : String) {l1 l2 : List User}
    (h : List.Forall₂ eqExceptPassword l1 l2) :
    (l1.filter (userMatches q)).map selectNoPassword =
      (l2.filter (userMatches q)).map selectNoPassword := by
  induction h with
  | nil => rfl
  | @cons a b t1 t2 hab htl ih =>
      obtain ⟨h1, h2, h3, h4, h5⟩ := hab
      have hm : userMatches q b = userMatches q a := by
        simp [userMatches, containsCI, h2, h3, h4]
      have hs : selectNoPassword a = selectNoPassword b := by
        simp [selectNoPassword, h1, h2, h3, h4, h5]
      simp only [List.filter_cons, hm]
      cases hma : userMatches q a
      · simpa using ih
      · simpa [hs] using ih

/-- C4: the search response never depends on password values — for any two
user collections agreeing on everything but `password`, the response is
identical (two-run noninterference), and the returned `UserView` records
carry no password field at all. -/
theorem search_password_noninterference (query : Option String)
    (l1 l2 : List User) (h : List.Forall₂ eqExceptPassword l1 l2) :
    searchUsers query l1 = searchUsers query l2 := by
  cases query with
  | none => rfl
  | some q =>
      by_cases hq : q = ""
      · simp [searchUsers, hq]
      · simpa [searchUsers, hq] using searchUsers_filter_map_congr q h

/-- The sample user `uA` with a different password. -/
def uA2 : User :=
  { id := 1, fullName := "Alice Smith", username := "alice",
    email := "alice@example.com", password := "hunter2", role := "user" }

/-- Witness for C4 at a concrete input: the stores `[uA]` and `[uA2]` differ
only in the password, and the search responses coincide. -/
theorem search_password_noninterference_witness :
    searchUsers (some "alice") [uA] = searchUsers (some "alice") [uA2] :=
  search_password_noninterference (some "alice") [uA] [uA2]
    (List.Forall₂.cons (by exact ⟨rfl, rfl, rfl, rfl, rfl⟩) List.Forall₂.nil)

/-! ### C5 -/

/-- C5: an authenticated caller who neither created the task nor appears in
its `assignedTo` gets 403 from full update, status update and delete, and the
store is left unchanged by all three. -/
theorem outsider_update_status_delete_forbidden (caller : UserId)
    (id : TaskId) (b : UpdateBody) (st : String) (s : Store) (t : Task)
    (hfind : findTask id s = some t) (hc : caller ≠ t.createdBy)
    (ha : caller ∉ t.assignedTo) :
    updateTask caller id b s = (TaskResp.forbidden, s) ∧
    updateStatus caller id st s = (TaskResp.forbidden, s) ∧
    deleteTask caller id s = (TaskResp.forbidden, s) ∧
    TaskResp.forbidden.statusCode = 403 := by
  refine ⟨?_, ?_, ?_, rfl⟩
  · simp [updateTask, hfind, Ne.symm hc]
  · simp [updateStatus, hfind, ha]
  · simp [deleteTask, hfind, Ne.symm hc]

/-- Witness for C5 at a concrete input: user 5 is neither the creator (0) nor
an assignee (1, 2) of `tStored`. -/
theorem outsider_update_status_delete_forbidden_witness :
    updateTask 5 10 bExtend sTask = (TaskResp.forbidden, sTask) ∧
    updateStatus 5 10 "done" sTask = (TaskResp.forbidden, sTask) ∧
    deleteTask 5 10 sTask = (TaskResp.forbidden, sTask) ∧
    TaskResp.forbidden.statusCode = 403 :=
  outsider_update_status_delete_forbidden 5 10 bExtend "done" sTask tStored
    rfl (by decide) (by decide)

/-! ### C6 -/

/-- C6: a creator delete succeeds, removes the task, removes every
notification whose `taskId` references it, and afterwards no user's
notification listing contains a notification referencing it. -/
theorem delete_cascades_notifications (caller : UserId) (id : TaskId)
    (s : Store) (t : Task) (hfind : findTask id s = some t)
    (hc : t.createdBy = caller) :
    (deleteTask caller id s).1 = TaskResp.deleted ∧
    (∀ tk ∈ ((deleteTask caller id s).2).tasks, tk.id ≠ t.id) ∧
    (∀ nf ∈ ((deleteTask caller id s).2).notifications, nf.taskId ≠ t.id) ∧
    ∀ u : UserId, ∀ nf ∈ listNotifications u ((deleteTask caller id s).2),
      nf.taskId ≠ t.id := by
  subst hc
  have h1 : ((deleteTask t.createdBy id s).2).tasks =
      s.tasks.filter (fun tk => !(tk.id == t.id)) := by
    simp [deleteTask, hfind]
  have h2 : ((deleteTask t.createdBy id s).2).notifications =
      s.notifications.filter (fun nf => !(nf.taskId == t.id)) := by
    simp [deleteTask, hfind]
  refine ⟨by simp [deleteTask, hfind], ?_, ?_, ?_⟩
  · intro tk htk
    rw [h1] at htk
    simpa using (List.mem_filter.mp htk).2
  · intro nf hnf
    rw [h2] at hnf
    simpa using (List.mem_filter.mp hnf).2
  · intro u nf hnf
    rw [listNotifications, List.mem_reverse] at hnf
    have hmem := List.mem_of_mem_filter hnf
    rw [h2] at hmem
    simpa using (List.mem_filter.mp hmem).2

/-- A notification referencing `tStored`, addressed to user 1. -/
def nfAssigned : Notification :=
  { id := 0, type := NotifType.task_assigned, taskId := 10,
    message := "You have been assigned a new task: t", userId := 1,
    read := false }

/-- The store `sTask` together with `nfAssigned`. -/
def sTaskN : Store :=
  { users := [], tasks := [tStored], notifications := [nfAssigned],
    nextTaskId := 11, nextNotifId := 1 }

/-- Witness for C6 at a concrete input: creator 0 deletes `tStored` from
`sTaskN`. -/
theorem delete_cascades_notifications_witness :
    (deleteTask 0 10 sTaskN).1 = TaskResp.deleted ∧
    (∀ tk ∈ ((deleteTask 0 10 sTaskN).2).tasks, tk.id ≠ tStored.id) ∧
    (∀ nf ∈ ((deleteTask 0 10 sTaskN).2).notifications,
      nf.taskId ≠ tStored.id) ∧
    ∀ u : UserId, ∀ nf ∈ listNotifications u ((deleteTask 0 10 sTaskN).2),
      nf.taskId ≠ tStored.id :=
  delete_cascades_notifications 0 10 sTaskN tStored rfl rfl

/-! ### C8 -/

/-- C8: mark-read is idempotent — on a notification owned by the caller both
invocations succeed and return the record with `read = true`, and the second
invocation leaves the store exactly as the first left it. -/
theorem markRead_idempotent (caller : UserId) (id : NotifId) (s : Store)
    (n : Notification) (hfind : findNotif id s = some n)
    (hown : n.userId = caller) :
    (markRead caller id s).1 = NotifResp.ok { n with read := true } ∧
    markRead caller id ((markRead caller id s).2) =
      (NotifResp.ok { n with read := true }, (markRead caller id s).2) := by
  subst hown
  have hfind' : s.notifications.find? (fun m => m.id == id) = some n := hfind
  have hs1 : (markRead n.userId id s).2 =
      { s with notifications := setReadById id s.notifications } := by
    simp [markRead, hfind]
  have hfind2 :
      findNotif id { s with notifications := setReadById id s.notifications } =
        some { n with read := true } :=
    setReadById_find? id s.notifications n hfind'
  refine ⟨by simp [markRead, hfind], ?_⟩
  rw [hs1]
  simp [markRead, hfind2, setReadById_idem]

/-- An unread notification owned by user 1. -/
def nfOwned : Notification :=
  { id := 7, type := NotifType.task_assigned, taskId := 10,
    message := "m", userId := 1, read := false }

/-- A store holding just `nfOwned`. -/
def sNotif : Store :=
  { users := [], tasks := [tStored], notifications := [nfOwned],
    nextTaskId := 11, nextNotifId := 8 }

/-- Witness for C8 at a concrete input: user 1 marks notification 7 read
twice. -/
theorem markRead_idempotent_witness :
    (markRead 1 7 sNotif).1 = NotifResp.ok { nfOwned with read := true } ∧
    markRead 1 7 ((markRead 1 7 sNotif).2) =
      (NotifResp.ok { nfOwned with read := true }, (markRead 1 7 sNotif).2) :=
  markRead_idempotent 1 7 sNotif nfOwned rfl rfl

/-! ### C9 -/

/-- C9: a creator update applies exactly the supplied fields — every field
absent from the request body keeps its stored value (both in the response
and in the store), and every supplied field takes the supplied value. -/
theorem update_partial_frame (caller : UserId) (id : TaskId) (b : UpdateBody)
    (s : Store) (t : Task) (hfind : findTask id s = some t)
    (hc : t.createdBy = caller) :
    (updateTask caller id b s).1 = TaskResp.ok (applyUpdates t b) ∧
    findTask id ((updateTask caller id b s).2) = some (applyUpdates t b) ∧
    (b.title = none → (applyUpdates t b).title = t.title) ∧
    (∀ x, b.title = some x → (applyUpdates t b).title = x) ∧
    (b.description = none →
      (applyUpdates t b).description = t.description) ∧
    (∀ x, b.description = some x → (applyUpdates t b).description = x) ∧
    (b.status = none → (applyUpdates t b).status = t.status) ∧
    (∀ x, b.status = some x → (applyUpdates t b).status = x) ∧
    (b.priority = none → (applyUpdates t b).priority = t.priority) ∧
    (∀ x, b.priority = some x → (applyUpdates t b).priority = x) ∧
    (b.dueDate = none → (applyUpdates t b).dueDate = t.dueDate) ∧
    (∀ x, b.dueDate = some x → (applyUpdates t b).dueDate = some x) ∧
    (b.assignedTo = none → (applyUpdates t b).assignedTo = t.assignedTo) ∧
    (∀ x, b.assignedTo = some x → (applyUpdates t b).assignedTo = x) := by
  subst hc
  have hfind' : s.tasks.find? (fun tk => tk.id == id) = some t := hfind
  have htid : t.id = id := by
    simpa using List.find?_some hfind'
  have hupd : ((updateTask t.createdBy id b s).2).tasks =
      replaceTaskById id (applyUpdates t b) s.tasks := by
    simp [updateTask, hfind]
  refine ⟨by simp [updateTask, hfind], ?_, ?_, ?_, ?_, ?_, ?_, ?_, ?_, ?_,
          ?_, ?_, ?_, ?_⟩
  · show ((updateTask t.createdBy id b s).2).tasks.find?
      (fun tk => tk.id == id) = some (applyUpdates t b)
    rw [hupd]
    exact replaceTaskById_find? id (applyUpdates t b) s.tasks
      (by simpa [applyUpdates] using htid) t hfind'
  · intro h; simp [applyUpdates, h]
  · intro x h; simp [applyUpdates, h]
  · intro h; simp [applyUpdates, h]
  · intro x h; simp [applyUpdates, h]
  · intro h; simp [applyUpdates, h]
  · intro x h; simp [applyUpdates, h]
  · intro h; simp [applyUpdates, h]
  · intro x h; simp [applyUpdates, h]
  · intro h; simp [applyUpdates, h]
  · intro x h; simp [applyUpdates, h]
  · intro h; simp [applyUpdates, h]
  · intro x h; simp [applyUpdates, h]

/-- An update body supplying only `status`. -/
def bStatusOnly : UpdateBody :=
  { title := none, description := none, status := some "done",
    priority := none, dueDate := none, assignedTo := none }

/-- Witness for C9 at a concrete input: creator 0 updates only the status of
`tStored`; every other field keeps its stored value. -/
theorem update_partial_frame_witness :
    (updateTask 0 10 bStatusOnly sTask).1 =
      TaskResp.ok (applyUpdates tStored bStatusOnly) ∧
    findTask 10 ((updateTask 0 10 bStatusOnly sTask).2) =
      some (applyUpdates tStored bStatusOnly) ∧
    (bStatusOnly.title = none →
      (applyUpdates tStored bStatusOnly).title = tStored.title) ∧
    (∀ x, bStatusOnly.title = some x →
      (applyUpdates tStored bStatusOnly).title = x) ∧
    (bStatusOnly.description = none →
      (applyUpdates tStored bStatusOnly).description = tStored.description) ∧
    (∀ x, bStatusOnly.description = some x →
      (applyUpdates tStored bStatusOnly).description = x) ∧
    (bStatusOnly.status = none →
      (applyUpdates tStored bStatusOnly).status = tStored.status) ∧
    (∀ x, bStatusOnly.status = some x →
      (applyUpdates tStored bStatusOnly).status = x) ∧
    (bStatusOnly.priority = none →
      (applyUpdates tStored bStatusOnly).priority = tStored.priority) ∧
    (∀ x, bStatusOnly.priority = some x →
      (applyUpdates tStored bStatusOnly).priority = x) ∧
    (bStatusOnly.dueDate = none →
      (applyUpdates tStored bStatusOnly).dueDate = tStored.dueDate) ∧
    (∀ x, bStatusOnly.dueDate = some x →
      (applyUpdates tStored bStatusOnly).dueDate = some x) ∧
    (bStatusOnly.assignedTo = none →
      (applyUpdates tStored bStatusOnly).assignedTo = tStored.assignedTo) ∧
    (∀ x, bStatusOnly.assignedTo = some x →
      (applyUpdates tStored bStatusOnly).assignedTo = x) :=
  update_partial_frame 0 10 bStatusOnly sTask tStored rfl rfl

/-! ### C7 -/

theorem eq_of_mem_of_id_nodup {l : List Notification}
    (hnd : (l.map (fun m => m.id)).Nodup) {a b : Notification}
    (ha : a ∈ l) (hb : b ∈ l) (hid : a.id = b.id) : a = b :=
  List.inj_on_of_nodup_map hnd ha hb hid

theorem read_mono_self {l : List Notification}
    (hnd : (l.map (fun m => m.id)).Nodup)
    {n n' : Notification} (hn : n ∈ l) (hr : n.read = true)
    (hn' : n' ∈ l) (hid : n'.id = n.id) : n'.read = true := by
  have h := eq_of_mem_of_id_nodup hnd hn' hn hid
  rw [h]; exact hr

theorem read_mono_append {l : List Notification} {cap base : NotifId}
    {tid : TaskId} {msg : String} {us : List UserId}
    (hfresh : ∀ m ∈ l, m.id < cap) (hbase : cap ≤ base)
    (hnd : (l.map (fun m => m.id)).Nodup)
    {n n' : Notification} (hn : n ∈ l) (hr : n.read = true)
    (hn' : n' ∈ l ++ assignNotifs base tid msg us) (hid : n'.id = n.id) :
    n'.read = true := by
  rcases List.mem_append.mp hn' with h | h
  · exact read_mono_self hnd hn hr h hid
  · obtain ⟨-, -, -, -, hb, -⟩ := mem_assignNotifs h
    rw [hid] at hb
    exact absurd hb
      (Nat.not_le.mpr (Nat.lt_of_lt_of_le (hfresh n hn) hbase))

theorem read_mono_map {l : List Notification} {f : Notification → Notification}
    (hfid : ∀ m, (f m).id = m.id)
    (hfrd : ∀ m, m.read = true → (f m).read = true)
    (hnd : (l.map (fun m => m.id)).Nodup)
    {n n' : Notification} (hn : n ∈ l) (hr : n.read = true)
    (hn' : n' ∈ l.map f) (hid : n'.id = n.id) : n'.read = true := by
  obtain ⟨m, hm, rfl⟩ := List.mem_map.mp hn'
  have hmn : m = n :=
    eq_of_mem_of_id_nodup hnd hm hn (by rw [← hfid m, hid])
  subst hmn
  exact hfrd m hr

/-- C7: across every exposed mutating operation, no notification's `read`
flag ever transitions from `true` back to `false` — on any store whose
notification ids are distinct and below the fresh-id counter, a notification
that survives an operation under an id that was marked read stays read. -/
theorem read_monotone (op : Op) (s : Store) (n n' : Notification)
    (hnd : (s.notifications.map (fun m => m.id)).Nodup)
    (hfresh : ∀ m ∈ s.notifications, m.id < s.nextNotifId)
    (hn : n ∈ s.notifications) (hr : n.read = true)
    (hn' : n' ∈ (applyOp op s).notifications) (hid : n'.id = n.id) :
    n'.read = true := by
  cases op with
  | createOp c b =>
      cases hb : b.assignedTo with
      | none =>
          have he : (applyOp (Op.createOp c b) s).notifications =
              s.notifications := by
            simp [applyOp, createTask, hb]
          rw [he] at hn'
          exact read_mono_self hnd hn hr hn' hid
      | some l =>
          have he : (applyOp (Op.createOp c b) s).notifications =
              s.notifications ++ assignNotifs s.nextNotifId
                (newTaskDoc c b s).id
                ("You have been assigned a new task: " ++ b.title) l := by
            simp [applyOp, createTask, hb]
          rw [he] at hn'
          exact read_mono_append hfresh le_rfl hnd hn hr hn' hid
  | updateOp c i b =>
      cases hft : findTask i s with
      | none =>
          have he : (applyOp (Op.updateOp c i b) s).notifications =
              s.notifications := by
            simp [applyOp, updateTask, hft]
          rw [he] at hn'
          exact read_mono_self hnd hn hr hn' hid
      | some task =>
          by_cases hcr : task.createdBy = c
          · have he : (applyOp (Op.updateOp c i b) s).notifications =
                s.notifications ++ updateNotifs task b s.nextNotifId := by
              simp [applyOp, updateTask, hft, hcr]
            rw [he] at hn'
            cases hb : b.assignedTo with
            | none =>
                rw [updateNotifs, hb, List.append_nil] at hn'
                exact read_mono_self hnd hn hr hn' hid
            | some l =>
                rw [updateNotifs, hb] at hn'
                exact read_mono_append hfresh le_rfl hnd hn hr hn' hid
          · have he : (applyOp (Op.updateOp c i b) s).notifications =
                s.notifications := by
              simp [applyOp, updateTask, hft, hcr]
            rw [he] at hn'
            exact read_mono_self hnd hn hr hn' hid
  | updateStatusOp c i st =>
      have he : (applyOp (Op.updateStatusOp c i st) s).notifications =
          s.notifications := by
        cases hft : findTask i s with
        | none => simp [applyOp, updateStatus, hft]
        | some task =>
            by_cases hm : c ∈ task.assignedTo <;>
              simp [applyOp, updateStatus, hft, hm]
      rw [he] at hn'
      exact read_mono_self hnd hn hr hn' hid
  | deleteOp c i =>
      cases hft : findTask i s with
      | none =>
          have he : (applyOp (Op.deleteOp c i) s).notifications =
              s.notifications := by
            simp [applyOp, deleteTask, hft]
          rw [he] at hn'
          exact read_mono_self hnd hn hr hn' hid
      | some task =>
          by_cases hcr : task.createdBy = c
          · have he : (applyOp (Op.deleteOp c i) s).notifications =
                s.notifications.filter
                  (fun nf => !(nf.taskId == task.id)) := by
              simp [applyOp, deleteTask, hft, hcr]
            rw [he] at hn'
            exact read_mono_self hnd hn hr (List.mem_of_mem_filter hn') hid
          · have he : (applyOp (Op.deleteOp c i) s).notifications =
                s.notifications := by
              simp [applyOp, deleteTask, hft, hcr]
            rw [he] at hn'
            exact read_mono_self hnd hn hr hn' hid
  | markReadOp c i =>
      cases hfn : findNotif i s with
      | none =>
          have he : (applyOp (Op.markReadOp c i) s).notifications =
              s.notifications := by
            simp [applyOp, markRead, hfn]
          rw [he] at hn'
          exact read_mono_self hnd hn hr hn' hid
      | some m =>
          by_cases hown : m.userId = c
          · have he : (applyOp (Op.markReadOp c i) s).notifications =
                setReadById i s.notifications := by
              simp [applyOp, markRead, hfn, hown]
            rw [he, setReadById] at hn'
            refine read_mono_map ?_ ?_ hnd hn hr hn' hid
            · intro m0
              by_cases h : m0.id = i <;> simp [h]
            · intro m0 h0
              by_cases h : m0.id = i <;> simp [h, h0]
          · have he : (applyOp (Op.markReadOp c i) s).notifications =
                s.notifications := by
              simp [applyOp, markRead, hfn, hown]
            rw [he] at hn'
            exact read_mono_self hnd hn hr hn' hid
  | markAllReadOp c =>
      have he : (applyOp (Op.markAllReadOp c) s).notifications =
          s.notifications.map
            (fun nf => if nf.userId == c && !nf.read
                       then { nf with read := true } else nf) := by
        simp [applyOp, markAllRead]
      rw [he] at hn'
      refine read_mono_map ?_ ?_ hnd hn hr hn' hid
      · intro m0
        by_cases h : (m0.userId == c && !m0.read) = true <;> simp [h]
      · intro m0 h0
        by_cases h : (m0.userId == c && !m0.read) = true <;> simp [h, h0]

/-- A notification already marked read, owned by user 1. -/
def nRead : Notification :=
  { id := 0, type := NotifType.task_assigned, taskId := 10, message := "m",
    userId := 1, read := true }

/-- A store holding just `nRead`. -/
def sRead : Store :=
  { users := [], tasks := [], notifications := [nRead], nextTaskId := 0,
    nextNotifId := 1 }

/-- Witness for C7 at a concrete input: `nRead` survives mark-all-read by its
owner and stays read. -/
theorem read_monotone_witness :
    ((sRead.notifications.map (fun m => m.id)).Nodup ∧
     (∀ m ∈ sRead.notifications, m.id < sRead.nextNotifId) ∧
     nRead ∈ sRead.notifications ∧ nRead.read = true ∧
     nRead ∈ (applyOp (Op.markAllReadOp 1) sRead).notifications) ∧
    nRead.read = true :=
  ⟨⟨by decide, by decide, by decide, rfl, by decide⟩,
   read_monotone (Op.markAllReadOp 1) sRead nRead nRead (by decide)
     (by decide) (by decide) rfl (by decide) rfl⟩

end TMS
